import Mathlib

/-!
Verification of the weather-data module of the DC-Bikeshare-Demand-Analysis
repository (src/weather_api.py), shallowly embedded in Lean 4.

The module provides four functions:
  - fetch_historical_weather: a date-range collection loop around a remote
    HTTP call, with rate-limit backoff and per-day failure tolerance;
  - load_noaa_weather_data: loads a tabular climate file and normalises its
    columns into a canonical schema;
  - create_weather_categories: derives categorical features from
    temp_avg and weather_main columns;
  - get_weather_summary: conditional summary statistics.

A pandas DataFrame is embedded as an ordered association list from column
name to column values.  Cell values are a sum of the scalar types the module
manipulates (strings, numbers as rationals, booleans, and a missing/NaN
marker).  Floating point is modelled by the rationals; NaN propagation in
aggregates is modelled by the explicit `Value.na` constructor, which the
aggregate embeddings skip exactly as pandas default skipna semantics do.
-/

namespace WeatherApi

/-- Scalar cell value of a DataFrame column: string, number (rationals stand
for the Python floats the module manipulates), boolean, or missing (NaN). -/
inductive Value where
  | str (s : String)
  | num (q : ℚ)
  | bool (b : Bool)
  | na
deriving DecidableEq, Repr

/-- A DataFrame: ordered list of (column name, column values) pairs, the
order of the list being the column order of the frame. -/
abbrev DataFrame := List (String × List Value)

/-- Whether the frame has a column of the given name (`c in df.columns`). -/
def hasCol : DataFrame → String → Bool
  | [], _ => false
  | (c', _) :: rest, c => if c' = c then true else hasCol rest c

/-- Values of the named column (`df[c]`); first matching column, `[]` when
the column is absent (the embeddings below only read present columns). -/
def getCol : DataFrame → String → List Value
  | [], _ => []
  | (c', v') :: rest, c => if c' = c then v' else getCol rest c

/-- Column assignment `df[c] = v`: overwrite the (first) existing column of
that name in place, or append a new column at the end of the frame. -/
def setCol : DataFrame → String → List Value → DataFrame
  | [], c, v => [(c, v)]
  | (c', v') :: rest, c, v =>
      if c' = c then (c, v) :: rest else (c', v') :: setCol rest c v

/-- Temperature categorisation, translated from the inner
`categorize_temp` of `create_weather_categories` (weather_api.py:207-217). -/
def categorize_temp (temp : ℚ) : String :=
  if temp < 32 then "Freezing"
  else if temp < 50 then "Cold"
  else if temp < 70 then "Mild"
  else if temp < 85 then "Warm"
  else "Hot"

/-- Elementwise action of `df["temp_avg"].apply(categorize_temp)` on one
cell.  A non-numeric cell is outside the Python domain (comparison with an
int raises there); it is mapped to itself and never reached by the theorems
below, which always supply numeric cells. -/
def categorize_value : Value → Value
  | Value.num q => Value.str (categorize_temp q)
  | v => v

/-- Elementwise `df["weather_main"] == "Clear"`: pandas equality against a
string is False on non-string cells, never an error. -/
def isClearVal (v : Value) : Value :=
  Value.bool (decide (v = Value.str "Clear"))

/-- Elementwise `df["weather_main"].isin(["Rain", "Drizzle", "Thunderstorm"])`. -/
def isRainyVal (v : Value) : Value :=
  Value.bool (decide (v = Value.str "Rain" ∨ v = Value.str "Drizzle" ∨
    v = Value.str "Thunderstorm"))

/-- Elementwise `df["weather_main"].isin(["Snow", "Sleet"])`. -/
def isSnowyVal (v : Value) : Value :=
  Value.bool (decide (v = Value.str "Snow" ∨ v = Value.str "Sleet"))

/-- First block of `create_weather_categories` (weather_api.py:206-219):
`if "temp_avg" in df.columns: df["temp_category"] = df["temp_avg"].apply(categorize_temp)`. -/
def addTempCategory (df : DataFrame) : DataFrame :=
  if hasCol df "temp_avg" then
    setCol df "temp_category" ((getCol df "temp_avg").map categorize_value)
  else df

/-- Second block of `create_weather_categories` (weather_api.py:221-224):
`if "weather_main" in df.columns:` followed by the three flag assignments,
each reading the frame as updated by the previous assignment. -/
def addWeatherFlags (df : DataFrame) : DataFrame :=
  if hasCol df "weather_main" then
    let df1 := setCol df "is_clear" ((getCol df "weather_main").map isClearVal)
    let df2 := setCol df1 "is_rainy" ((getCol df1 "weather_main").map isRainyVal)
    setCol df2 "is_snowy" ((getCol df2 "weather_main").map isSnowyVal)
  else df

/-- Translation of `create_weather_categories` (weather_api.py:190-226):
copy the frame, then run the two conditional blocks in order.  The
`.copy()` of line 204 is the identity on the value level; its aliasing
content is modelled separately by the heap-level embedding
`create_weather_categories_ref` below. -/
def create_weather_categories (weather_df : DataFrame) : DataFrame :=
  addWeatherFlags (addTempCategory weather_df)

/-!
Collector: `fetch_historical_weather` (weather_api.py:22-107).

Dates are embedded as integers counting calendar days (`current_date +=
timedelta(days=1)` is `+ 1`); the Unix-timestamp conversion of line 58 only
feeds the request parameters and is irrelevant to the claims.  The remote
environment is embedded as a list of responses consumed one per network
call, in order — including repeated calls for the same date during
rate-limit retries.  Observable sleeping is recorded as a list of durations
in seconds.
-/

/-- Daily payload of a successful (HTTP 200) response, the fields read from
`data["current"]` at weather_api.py:75-84, with main/description taken from
the first entry of the weather-condition list. -/
structure DailyData where
  temp : ℚ
  feels_like : ℚ
  humidity : ℚ
  clouds : ℚ
  wind_speed : ℚ
  weather_main : String
  weather_desc : String
deriving DecidableEq, Repr

/-- One accumulated row of the collector output (weather_api.py:75-84). -/
structure WRow where
  date : ℤ
  data : DailyData
deriving DecidableEq, Repr

/-- Outcome of one network call, as discriminated by the loop body:
HTTP 200 with a well-formed body, HTTP 401, HTTP 429, any other status
code, or an exception (transport failure from `requests.get`, or a parse
failure of a 200 body — both land in the same `except` handler). -/
inductive Resp where
  | ok (d : DailyData)
  | auth
  | rateLimit
  | err (code : ℕ)
  | exn
deriving DecidableEq, Repr

/-- Loop state of `fetch_historical_weather`: the current date and the
accumulated `weather_data` rows. -/
structure LoopState where
  current : ℤ
  rows : List WRow
deriving DecidableEq, Repr

/-- One iteration of the while-loop body (weather_api.py:57-102), given the
response to the one network call the iteration makes.  Returns the new
state and the list of sleep durations performed, in seconds.
  - 200: append the normalised row, sleep 1, advance one day;
  - 401: `raise ValueError("Invalid API key")` at line 89 — the raise is
    inside the `try` block, so it is caught by the functions own broad
    `except Exception` handler at line 99, which logs and falls through to
    line 102: no row, no courtesy sleep, advance one day, loop continues;
  - 429: sleep 60 and `continue`: same date, no row, courtesy sleep skipped;
  - other status: log, sleep 1, advance one day;
  - exception: caught at line 99, logged, advance one day. -/
def loop_iter (s : LoopState) (r : Resp) : LoopState × List ℕ :=
  match r with
  | Resp.ok d => (⟨s.current + 1, s.rows ++ [⟨s.current, d⟩]⟩, [1])
  | Resp.auth => (⟨s.current + 1, s.rows⟩, [])
  | Resp.rateLimit => (⟨s.current, s.rows⟩, [60])
  | Resp.err _ => (⟨s.current + 1, s.rows⟩, [1])
  | Resp.exn => (⟨s.current + 1, s.rows⟩, [])

/-- The while-loop of weather_api.py:57-102: run iterations while
`current <= end_date`, consuming one response per network call.  Returns
the accumulated rows and the unconsumed responses (`none` when the supplied
response list is too short for the run, a case no theorem relies on). -/
def fetch_loop (end_date : ℤ) :
    List Resp → ℤ → List WRow → Option (List WRow × List Resp)
  | resps, current, acc =>
    if current ≤ end_date then
      match resps with
      | [] => none
      | r :: rest =>
          fetch_loop end_date rest (loop_iter ⟨current, acc⟩ r).1.current
            (loop_iter ⟨current, acc⟩ r).1.rows
    else some (acc, resps)

/-- Translation of `fetch_historical_weather` (weather_api.py:22-107): the
credential check of lines 44-48 (argument defaulted from the environment
variable, empty or missing key raises ValueError before any network call),
then the collection loop.  `Except.error` is the ValueError of line 48; the
loop itself never raises (see `loop_iter`). -/
def fetch_historical_weather (start_date end_date : ℤ)
    (api_key : Option String) (API_KEY : Option String) (resps : List Resp) :
    Except String (Option (List WRow × List Resp)) :=
  let key := match api_key with
    | none => API_KEY
    | some k => some k
  match key with
  | none => Except.error "API key not found. Set OPENWEATHER_API_KEY in .env file"
  | some k =>
      if k = "" then
        Except.error "API key not found. Set OPENWEATHER_API_KEY in .env file"
      else
        Except.ok (fetch_loop end_date resps start_date [])

/-- Concrete daily payload used by the evaluation theorems. -/
def sampleDaily : DailyData :=
  ⟨70, 68, 50, 20, 5, "Clear", "clear sky"⟩

/-!
Loader/Normalizer: `load_noaa_weather_data` (weather_api.py:147-187).
-/

/-- The NOAA source-to-canonical column mapping (weather_api.py:168-175),
in Python dict insertion order, which is the iteration order of the copy
loop of lines 177-179. -/
def column_mapping : List (String × String) :=
  [("TMAX", "temp_max"), ("TMIN", "temp_min"), ("PRCP", "precipitation"),
    ("AWND", "wind_speed"), ("SNOW", "snow"), ("SNWD", "snow_depth")]

/-- One step of the copy loop (weather_api.py:177-179):
`if old_col in df.columns: df[new_col] = df[old_col]`.  The source column
is copied, not removed. -/
def copyCol (df : DataFrame) (pr : String × String) : DataFrame :=
  if hasCol df pr.1 then setCol df pr.2 (getCol df pr.1) else df

/-- The whole copy loop over `column_mapping`. -/
def copySourceCols (df : DataFrame) : DataFrame :=
  column_mapping.foldl copyCol df

/-- Elementwise `(df["temp_max"] + df["temp_min"]) / 2` on one row; a
non-numeric operand produces the missing value. -/
def avg2 : Value → Value → Value
  | Value.num a, Value.num b => Value.num ((a + b) / 2)
  | _, _ => Value.na

/-- Elementwise `df["precipitation"] > 0` on one cell: true only on
positive numbers — in pandas a NaN compared with 0 is False, as here. -/
def gtZero : Value → Value
  | Value.num q => Value.bool (decide (0 < q))
  | _ => Value.bool false

/-- Derivation step of weather_api.py:181-182: `if "temp_max" in df.columns
and "temp_min" in df.columns: df["temp_avg"] = (df["temp_max"] +
df["temp_min"]) / 2`. -/
def addTempAvg (df : DataFrame) : DataFrame :=
  if hasCol df "temp_max" && hasCol df "temp_min" then
    setCol df "temp_avg"
      (List.zipWith avg2 (getCol df "temp_max") (getCol df "temp_min"))
  else df

/-- Derivation step of weather_api.py:184-185: `if "precipitation" in
df.columns: df["is_rainy"] = df["precipitation"] > 0`. -/
def addIsRainy (df : DataFrame) : DataFrame :=
  if hasCol df "precipitation" then
    setCol df "is_rainy" ((getCol df "precipitation").map gtZero)
  else df

/-- Translation of `load_noaa_weather_data` (weather_api.py:147-187).  The
CSV read of line 164 yields the input frame.  Line 166 requires a DATE
column (a missing one is the KeyError the loader propagates, modelled as
`none`) and stores its parsed values in a new date column; the internals of
`pd.to_datetime(...).dt.date` are irrelevant to every claim, so the per-cell
parse is a parameter.  Then the copy loop and the two derivations run. -/
def load_noaa_weather_data (parse : Value → Value) (df : DataFrame) :
    Option DataFrame :=
  if hasCol df "DATE" then
    some (addIsRainy (addTempAvg (copySourceCols
      (setCol df "date" ((getCol df "DATE").map parse)))))
  else none

/-- Concrete NOAA input used to settle C8: a file with DATE and TMAX only. -/
def noaaSample : DataFrame :=
  [("DATE", [Value.str "2023-01-01"]), ("TMAX", [Value.num 50])]

/-!
Summary: `get_weather_summary` (weather_api.py:229-257).  The returned
Python dict is embedded as an association list in insertion order.  pandas
aggregates with default skipna semantics act on the numeric entries of a
column (NaN and non-numeric cells are skipped); the empty-column mean, min
and max are NaN in pandas, here the junk value 0 — no claim touches them.
-/

/-- Numeric entries of a column, in order (what a pandas numeric aggregate
with default skipna acts on). -/
def numsOf (vs : List Value) : List ℚ :=
  vs.filterMap (fun v => match v with | Value.num q => some q | _ => none)

/-- String entries of a column, in order (what `value_counts` counts). -/
def strsOf (vs : List Value) : List String :=
  vs.filterMap (fun v => match v with | Value.str s => some s | _ => none)

/-- Series mean: sum over count. -/
def meanQ (l : List ℚ) : ℚ := l.sum / l.length

/-- Series minimum (0 on the empty column, which pandas makes NaN). -/
def minQ : List ℚ → ℚ
  | [] => 0
  | x :: xs => xs.foldl min x

/-- Series maximum (0 on the empty column, which pandas makes NaN). -/
def maxQ : List ℚ → ℚ
  | [] => 0
  | x :: xs => xs.foldl max x

/-- Distinct entries in first-occurrence order. -/
def firstOccs (xs : List String) : List String :=
  xs.foldl (fun acc x => if x ∈ acc then acc else acc ++ [x]) []

/-- Embedding of `value_counts().to_dict()`: each distinct condition string
mapped to its occurrence count.  pandas lists keys by descending count; the
dict content is order-independent, and first-occurrence order is used
here. -/
def value_counts (xs : List String) : List (String × ℕ) :=
  (firstOccs xs).map (fun s => (s, xs.count s))

/-- Count of rows with positive precipitation:
`(weather_df["precipitation"] > 0).sum()` — a NaN compares False. -/
def rainyDays (vs : List Value) : ℕ :=
  vs.countP (fun v => match v with
    | Value.num q => decide (0 < q)
    | _ => false)

/-- A summary metric value: scalar, count, or frequency distribution. -/
inductive SummaryVal where
  | q (x : ℚ)
  | n (x : ℕ)
  | dist (d : List (String × ℕ))
deriving DecidableEq, Repr

/-- Translation of `get_weather_summary` (weather_api.py:229-257): start
from the empty dict and conditionally insert each metric group, in source
order, when its prerequisite column is present. -/
def get_weather_summary (weather_df : DataFrame) : List (String × SummaryVal) :=
  (if hasCol weather_df "temp_avg" then
    [("avg_temp", SummaryVal.q (meanQ (numsOf (getCol weather_df "temp_avg")))),
      ("min_temp", SummaryVal.q (minQ (numsOf (getCol weather_df "temp_avg")))),
      ("max_temp", SummaryVal.q (maxQ (numsOf (getCol weather_df "temp_avg"))))]
  else []) ++
  (if hasCol weather_df "precipitation" then
    [("total_precip",
        SummaryVal.q (numsOf (getCol weather_df "precipitation")).sum),
      ("rainy_days", SummaryVal.n (rainyDays (getCol weather_df "precipitation")))]
  else []) ++
  (if hasCol weather_df "weather_main" then
    [("weather_distribution",
        SummaryVal.dist (value_counts (strsOf (getCol weather_df "weather_main"))))]
  else [])

/-!
Heap-level embedding for the frame property of `create_weather_categories`
(weather_api.py:204, `df = weather_df.copy()`).  Frames live in a heap of
cells addressed by natural-number references, so that the aliasing content
of `.copy()` is explicit: every pandas column assignment mutates the cell
it is applied to, and the function mutates only the fresh copy. -/

/-- A heap of DataFrame cells; references are indices. -/
abbrev Heap := List DataFrame

/-- Dereference (out-of-range reads yield the empty frame; all theorems
stay in range). -/
def lookupRef (h : Heap) (r : ℕ) : DataFrame := h.getD r []

/-- The `.copy()` of weather_api.py:204: allocate a fresh cell holding the
same table and return its reference. -/
def copyAlloc (h : Heap) (r : ℕ) : Heap × ℕ := (h ++ [lookupRef h r], h.length)

/-- In-place column assignment `df[c] = v` on the cell at `r`. -/
def setColRef (h : Heap) (r : ℕ) (c : String) (v : List Value) : Heap :=
  h.set r (setCol (lookupRef h r) c v)

/-- Heap-level first block of `create_weather_categories` (lines 206-219),
mutating the cell at `df`. -/
def addTempCategoryRef (h : Heap) (df : ℕ) : Heap :=
  if hasCol (lookupRef h df) "temp_avg" then
    setColRef h df "temp_category"
      ((getCol (lookupRef h df) "temp_avg").map categorize_value)
  else h

/-- Heap-level second block of `create_weather_categories` (lines 221-224),
each assignment reading the cell as left by the previous one. -/
def addWeatherFlagsRef (h : Heap) (df : ℕ) : Heap :=
  if hasCol (lookupRef h df) "weather_main" then
    let ha := setColRef h df "is_clear"
      ((getCol (lookupRef h df) "weather_main").map isClearVal)
    let hb := setColRef ha df "is_rainy"
      ((getCol (lookupRef ha df) "weather_main").map isRainyVal)
    setColRef hb df "is_snowy"
      ((getCol (lookupRef hb df) "weather_main").map isSnowyVal)
  else h

/-- Heap-level `create_weather_categories`: copy the argument cell, run the
two blocks on the copy, return the heap after the call and the reference
the function returns. -/
def create_weather_categories_ref (h : Heap) (weather_df : ℕ) : Heap × ℕ :=
  (addWeatherFlagsRef
      (addTempCategoryRef (copyAlloc h weather_df).1 (copyAlloc h weather_df).2)
      (copyAlloc h weather_df).2,
    (copyAlloc h weather_df).2)

theorem hasCol_setCol (df : DataFrame) (c c' : String) (v : List Value) :
    hasCol (setCol df c v) c' = if c = c' then true else hasCol df c' := by
  induction df with
  | nil =>
      by_cases h : c = c' <;> simp [setCol, hasCol, h]
  | cons e rest ih =>
      obtain ⟨a, b⟩ := e
      by_cases hac : a = c
      · subst hac
        by_cases h : a = c' <;> simp [setCol, hasCol, h]
      · by_cases h : a = c'
        · subst h
          simp [setCol, hasCol, hac, Ne.symm hac]
        · simp [setCol, hasCol, hac, h, ih]

theorem getCol_setCol_self (df : DataFrame) (c : String) (v : List Value) :
    getCol (setCol df c v) c = v := by
  induction df with
  | nil => simp [setCol, getCol]
  | cons e rest ih =>
      obtain ⟨a, b⟩ := e
      by_cases hac : a = c
      · subst hac; simp [setCol, getCol]
      · simp [setCol, getCol, hac, ih]

theorem getCol_setCol_ne (df : DataFrame) (c c' : String) (v : List Value)
    (h : c ≠ c') : getCol (setCol df c v) c' = getCol df c' := by
  induction df with
  | nil => simp [setCol, getCol, h]
  | cons e rest ih =>
      obtain ⟨a, b⟩ := e
      by_cases hac : a = c
      · subst hac
        simp [setCol, getCol, h]
      · simp [setCol, getCol, hac, ih]

theorem setCol_getCol_self (df : DataFrame) (c : String)
    (h : hasCol df c = true) : setCol df c (getCol df c) = df := by
  induction df with
  | nil => simp [hasCol] at h
  | cons e rest ih =>
      obtain ⟨a, b⟩ := e
      by_cases hac : a = c
      · subst hac; simp [setCol, getCol]
      · simp [hasCol, hac] at h
        simp [setCol, getCol, hac, ih h]

theorem hasCol_addTempCategory_ne (df : DataFrame) (c : String)
    (h : "temp_category" ≠ c) : hasCol (addTempCategory df) c = hasCol df c := by
  unfold addTempCategory
  split_ifs with h1
  · simp [hasCol_setCol, h]
  · rfl

theorem getCol_addTempCategory_ne (df : DataFrame) (c : String)
    (h : "temp_category" ≠ c) : getCol (addTempCategory df) c = getCol df c := by
  unfold addTempCategory
  split_ifs with h1
  · exact getCol_setCol_ne _ _ _ _ h
  · rfl

theorem hasCol_addWeatherFlags_ne (df : DataFrame) (c : String)
    (h1 : "is_clear" ≠ c) (h2 : "is_rainy" ≠ c) (h3 : "is_snowy" ≠ c) :
    hasCol (addWeatherFlags df) c = hasCol df c := by
  unfold addWeatherFlags
  split_ifs with h
  · simp [hasCol_setCol, h1, h2, h3]
  · rfl

theorem getCol_addWeatherFlags_ne (df : DataFrame) (c : String)
    (h1 : "is_clear" ≠ c) (h2 : "is_rainy" ≠ c) (h3 : "is_snowy" ≠ c) :
    getCol (addWeatherFlags df) c = getCol df c := by
  unfold addWeatherFlags
  split_ifs with h
  · rw [getCol_setCol_ne _ _ _ _ h3, getCol_setCol_ne _ _ _ _ h2,
      getCol_setCol_ne _ _ _ _ h1]
  · rfl

theorem getCol_addTempCategory_self (df : DataFrame)
    (h : hasCol df "temp_avg" = true) :
    getCol (addTempCategory df) "temp_category" =
      (getCol df "temp_avg").map categorize_value := by
  unfold addTempCategory
  rw [if_pos h, getCol_setCol_self]

theorem hasCol_addTempCategory_self (df : DataFrame)
    (h : hasCol df "temp_avg" = true) :
    hasCol (addTempCategory df) "temp_category" = true := by
  unfold addTempCategory
  rw [if_pos h, hasCol_setCol]
  simp

theorem getCol_addWeatherFlags_flags (df : DataFrame)
    (h : hasCol df "weather_main" = true) :
    getCol (addWeatherFlags df) "is_clear" =
        (getCol df "weather_main").map isClearVal ∧
      getCol (addWeatherFlags df) "is_rainy" =
        (getCol df "weather_main").map isRainyVal ∧
      getCol (addWeatherFlags df) "is_snowy" =
        (getCol df "weather_main").map isSnowyVal := by
  unfold addWeatherFlags
  rw [if_pos h]
  refine ⟨?_, ?_, ?_⟩ <;>
    simp [getCol_setCol_ne, getCol_setCol_self]

theorem hasCol_addWeatherFlags_flags (df : DataFrame)
    (h : hasCol df "weather_main" = true) :
    hasCol (addWeatherFlags df) "is_clear" = true ∧
      hasCol (addWeatherFlags df) "is_rainy" = true ∧
      hasCol (addWeatherFlags df) "is_snowy" = true := by
  unfold addWeatherFlags
  rw [if_pos h]
  refine ⟨?_, ?_, ?_⟩ <;> simp [hasCol_setCol]

theorem addTempCategory_create (df : DataFrame) :
    addTempCategory (create_weather_categories df) =
      create_weather_categories df := by
  by_cases h : hasCol df "temp_avg" = true
  · have hhas : hasCol (create_weather_categories df) "temp_avg" = true := by
      rw [create_weather_categories, hasCol_addWeatherFlags_ne _ _ (by decide)
        (by decide) (by decide), hasCol_addTempCategory_ne _ _ (by decide), h]
    have hget : getCol (create_weather_categories df) "temp_avg" =
        getCol df "temp_avg" := by
      rw [create_weather_categories, getCol_addWeatherFlags_ne _ _ (by decide)
        (by decide) (by decide), getCol_addTempCategory_ne _ _ (by decide)]
    have hcat : getCol (create_weather_categories df) "temp_category" =
        (getCol df "temp_avg").map categorize_value := by
      rw [create_weather_categories, getCol_addWeatherFlags_ne _ _ (by decide)
        (by decide) (by decide), getCol_addTempCategory_self _ h]
    have hcathas : hasCol (create_weather_categories df) "temp_category" = true := by
      rw [create_weather_categories, hasCol_addWeatherFlags_ne _ _ (by decide)
        (by decide) (by decide), hasCol_addTempCategory_self _ h]
    rw [addTempCategory, if_pos hhas, hget, ← hcat, setCol_getCol_self _ _ hcathas]
  · have hhas : hasCol (create_weather_categories df) "temp_avg" = false := by
      rw [create_weather_categories, hasCol_addWeatherFlags_ne _ _ (by decide)
        (by decide) (by decide), hasCol_addTempCategory_ne _ _ (by decide)]
      exact Bool.not_eq_true _ ▸ (by simpa using h)
    rw [addTempCategory, if_neg (by simp [hhas])]

theorem addWeatherFlags_eq (df : DataFrame)
    (h : hasCol df "weather_main" = true) :
    addWeatherFlags df =
      setCol (setCol (setCol df "is_clear"
          ((getCol df "weather_main").map isClearVal))
        "is_rainy" ((getCol df "weather_main").map isRainyVal))
        "is_snowy" ((getCol df "weather_main").map isSnowyVal) := by
  simp only [addWeatherFlags, h, if_true]
  rw [getCol_setCol_ne _ _ _ _ (by decide), getCol_setCol_ne _ _ _ _ (by decide),
    getCol_setCol_ne _ _ _ _ (by decide)]

theorem addWeatherFlags_create (df : DataFrame) :
    addWeatherFlags (create_weather_categories df) =
      create_weather_categories df := by
  by_cases h : hasCol (addTempCategory df) "weather_main" = true
  · have hhas : hasCol (create_weather_categories df) "weather_main" = true := by
      rw [create_weather_categories, hasCol_addWeatherFlags_ne _ _ (by decide)
        (by decide) (by decide), h]
    have hget : getCol (create_weather_categories df) "weather_main" =
        getCol (addTempCategory df) "weather_main" := by
      rw [create_weather_categories, getCol_addWeatherFlags_ne _ _ (by decide)
        (by decide) (by decide)]
    obtain ⟨hc, hr, hs⟩ := getCol_addWeatherFlags_flags (addTempCategory df) h
    obtain ⟨hch, hrh, hsh⟩ := hasCol_addWeatherFlags_flags (addTempCategory df) h
    have hc' : getCol (create_weather_categories df) "is_clear" =
        (getCol (addTempCategory df) "weather_main").map isClearVal := hc
    have hr' : getCol (create_weather_categories df) "is_rainy" =
        (getCol (addTempCategory df) "weather_main").map isRainyVal := hr
    have hs' : getCol (create_weather_categories df) "is_snowy" =
        (getCol (addTempCategory df) "weather_main").map isSnowyVal := hs
    have hch' : hasCol (create_weather_categories df) "is_clear" = true := hch
    have hrh' : hasCol (create_weather_categories df) "is_rainy" = true := hrh
    have hsh' : hasCol (create_weather_categories df) "is_snowy" = true := hsh
    rw [addWeatherFlags_eq _ hhas, hget, ← hc', setCol_getCol_self _ _ hch']
    rw [← hr', setCol_getCol_self _ _ hrh']
    rw [← hs', setCol_getCol_self _ _ hsh']
  · have hhas : hasCol (create_weather_categories df) "weather_main" = false := by
      rw [create_weather_categories, hasCol_addWeatherFlags_ne _ _ (by decide)
        (by decide) (by decide)]
      simpa using h
    rw [addWeatherFlags, if_neg (by simp [hhas])]

/-- C6: `create_weather_categories` is idempotent — applying it twice yields
a frame identical to applying it once; the reapplication overwrites
temp_category, is_clear, is_rainy and is_snowy with the same values. -/
theorem create_weather_categories_idempotent (df : DataFrame) :
    create_weather_categories (create_weather_categories df) =
      create_weather_categories df := by
  show addWeatherFlags (addTempCategory (create_weather_categories df)) = _
  rw [addTempCategory_create, addWeatherFlags_create]

theorem categorize_temp_freezing (q : ℚ) :
    categorize_temp q = "Freezing" ↔ q < 32 := by
  unfold categorize_temp
  split_ifs with h1 h2 h3 h4 <;> simp_all

theorem categorize_temp_cold (q : ℚ) :
    categorize_temp q = "Cold" ↔ 32 ≤ q ∧ q < 50 := by
  unfold categorize_temp
  split_ifs with h1 h2 h3 h4 <;> simp_all

theorem categorize_temp_mild (q : ℚ) :
    categorize_temp q = "Mild" ↔ 50 ≤ q ∧ q < 70 := by
  unfold categorize_temp
  split_ifs with h1 h2 h3 h4 <;> simp_all
  all_goals first | linarith | (intro h; linarith)

theorem categorize_temp_warm (q : ℚ) :
    categorize_temp q = "Warm" ↔ 70 ≤ q ∧ q < 85 := by
  unfold categorize_temp
  split_ifs with h1 h2 h3 h4 <;> simp_all
  all_goals first | linarith | (intro h; linarith)

theorem categorize_temp_hot (q : ℚ) :
    categorize_temp q = "Hot" ↔ 85 ≤ q := by
  unfold categorize_temp
  split_ifs with h1 h2 h3 h4 <;> simp_all
  all_goals linarith

/-- C4: for every frame with a temp_avg column and every row holding a
numeric value q, `create_weather_categories` assigns temp_category by the
fixed inclusive-lower-bound thresholds: Freezing iff q < 32, Cold iff
32 ≤ q < 50, Mild iff 50 ≤ q < 70, Warm iff 70 ≤ q < 85, Hot iff q ≥ 85. -/
theorem create_weather_categories_temp_thresholds (df : DataFrame) (i : ℕ)
    (q : ℚ) (hcol : hasCol df "temp_avg" = true)
    (hcell : (getCol df "temp_avg")[i]? = some (Value.num q)) :
    (((getCol (create_weather_categories df) "temp_category")[i]? =
        some (Value.str "Freezing")) ↔ q < 32) ∧
    (((getCol (create_weather_categories df) "temp_category")[i]? =
        some (Value.str "Cold")) ↔ 32 ≤ q ∧ q < 50) ∧
    (((getCol (create_weather_categories df) "temp_category")[i]? =
        some (Value.str "Mild")) ↔ 50 ≤ q ∧ q < 70) ∧
    (((getCol (create_weather_categories df) "temp_category")[i]? =
        some (Value.str "Warm")) ↔ 70 ≤ q ∧ q < 85) ∧
    (((getCol (create_weather_categories df) "temp_category")[i]? =
        some (Value.str "Hot")) ↔ 85 ≤ q) := by
  have hcat : getCol (create_weather_categories df) "temp_category" =
      (getCol df "temp_avg").map categorize_value := by
    rw [create_weather_categories, getCol_addWeatherFlags_ne _ _ (by decide)
      (by decide) (by decide), getCol_addTempCategory_self _ hcol]
  rw [hcat, List.getElem?_map, hcell]
  simp only [Option.map_some', categorize_value, Option.some.injEq,
    Value.str.injEq]
  exact ⟨categorize_temp_freezing q, categorize_temp_cold q,
    categorize_temp_mild q, categorize_temp_warm q, categorize_temp_hot q⟩

/-- Witness for C4: the boundary value temp_avg = 32 is categorised Cold. -/
theorem create_weather_categories_temp_thresholds_witness :
    (getCol (create_weather_categories [("temp_avg", [Value.num 32])])
      "temp_category")[0]? = some (Value.str "Cold") := by
  have h := create_weather_categories_temp_thresholds
    [("temp_avg", [Value.num 32])] 0 32 (by rfl) (by rfl)
  exact h.2.1.mpr (by norm_num)

/-- C5: for every frame with a weather_main column and every row value v,
`create_weather_categories` sets the three boolean flags by exact
case-sensitive string membership: is_clear iff v = "Clear", is_rainy iff
v is one of "Rain", "Drizzle", "Thunderstorm", is_snowy iff v is one of
"Snow", "Sleet" — overwriting any pre-existing flag columns, since the
output cell depends only on the weather_main cell. -/
theorem create_weather_categories_flags (df : DataFrame) (i : ℕ) (v : Value)
    (hcol : hasCol df "weather_main" = true)
    (hcell : (getCol df "weather_main")[i]? = some v) :
    ((getCol (create_weather_categories df) "is_clear")[i]? =
        some (Value.bool (decide (v = Value.str "Clear")))) ∧
    ((getCol (create_weather_categories df) "is_rainy")[i]? =
        some (Value.bool (decide (v = Value.str "Rain" ∨
          v = Value.str "Drizzle" ∨ v = Value.str "Thunderstorm")))) ∧
    ((getCol (create_weather_categories df) "is_snowy")[i]? =
        some (Value.bool (decide (v = Value.str "Snow" ∨
          v = Value.str "Sleet")))) := by
  have hwm : hasCol (addTempCategory df) "weather_main" = true := by
    rw [hasCol_addTempCategory_ne _ _ (by decide)]; exact hcol
  have hwmget : getCol (addTempCategory df) "weather_main" =
      getCol df "weather_main" := getCol_addTempCategory_ne _ _ (by decide)
  obtain ⟨hc, hr, hs⟩ := getCol_addWeatherFlags_flags (addTempCategory df) hwm
  refine ⟨?_, ?_, ?_⟩
  · show (getCol (addWeatherFlags (addTempCategory df)) "is_clear")[i]? = _
    rw [hc, hwmget, List.getElem?_map, hcell]; rfl
  · show (getCol (addWeatherFlags (addTempCategory df)) "is_rainy")[i]? = _
    rw [hr, hwmget, List.getElem?_map, hcell]; rfl
  · show (getCol (addWeatherFlags (addTempCategory df)) "is_snowy")[i]? = _
    rw [hs, hwmget, List.getElem?_map, hcell]; rfl

/-- Witness for C5: weather_main = "Rain" gives is_clear false, is_rainy
true, is_snowy false. -/
theorem create_weather_categories_flags_witness :
    ((getCol (create_weather_categories [("weather_main", [Value.str "Rain"])])
        "is_clear")[0]? = some (Value.bool false)) ∧
    ((getCol (create_weather_categories [("weather_main", [Value.str "Rain"])])
        "is_rainy")[0]? = some (Value.bool true)) ∧
    ((getCol (create_weather_categories [("weather_main", [Value.str "Rain"])])
        "is_snowy")[0]? = some (Value.bool false)) := by
  have h := create_weather_categories_flags
    [("weather_main", [Value.str "Rain"])] 0 (Value.str "Rain") (by rfl) (by rfl)
  refine ⟨h.1.trans (by decide), h.2.1.trans (by decide), h.2.2.trans (by decide)⟩

theorem fetch_loop_cons (end_date current : ℤ) (r : Resp) (rest : List Resp)
    (acc : List WRow) (h : current ≤ end_date) :
    fetch_loop end_date (r :: rest) current acc =
      fetch_loop end_date rest (loop_iter ⟨current, acc⟩ r).1.current
        (loop_iter ⟨current, acc⟩ r).1.rows := by
  conv_lhs => unfold fetch_loop
  simp [h]

theorem fetch_loop_stop (end_date current : ℤ) (resps : List Resp)
    (acc : List WRow) (h : end_date < current) :
    fetch_loop end_date resps current acc = some (acc, resps) := by
  unfold fetch_loop
  rw [if_neg (not_le.mpr h)]

/-- C1: evaluation of the embedded code at the failing input.  With a valid
key, a two-day range whose day-0 response is HTTP 401 and whose day-1
response is HTTP 200, `fetch_historical_weather` does not abort: the
ValueError raised for the 401 is caught by the broad `except Exception`
handler of the same loop body, the day is skipped, and the following day
still commits a row — a partial one-row table is returned and no error
reaches the caller, contradicting the fatal-abort behaviour the
specification states. -/
theorem fetch_historical_weather_auth_caught :
    fetch_historical_weather 0 1 (some "valid-key") none
      [Resp.auth, Resp.ok sampleDaily] =
      Except.ok (some ([⟨1, sampleDaily⟩], [])) := rfl

/-- C2: a rate-limit response never advances the current date — an
iteration advances by exactly one day for every other outcome; the
rate-limit iteration sleeps exactly the fixed 60 seconds (no 1-second
courtesy delay) and leaves the row accumulator unchanged; and the loop then
re-issues the request for the same date with the same accumulator. -/
theorem fetch_loop_rate_limit_retry (s : LoopState) (r : Resp)
    (end_date current : ℤ) (acc : List WRow) (rest : List Resp)
    (h : current ≤ end_date) :
    ((loop_iter s r).1.current =
        if r = Resp.rateLimit then s.current else s.current + 1) ∧
    (loop_iter s Resp.rateLimit = (⟨s.current, s.rows⟩, [60])) ∧
    (fetch_loop end_date (Resp.rateLimit :: rest) current acc =
        fetch_loop end_date rest current acc) := by
  refine ⟨?_, rfl, ?_⟩
  · cases r <;> simp [loop_iter]
  · rw [fetch_loop_cons end_date current Resp.rateLimit rest acc h]
    rfl

/-- Witness for C2: a rate-limited call at date 0 is retried at date 0 with
the remaining responses. -/
theorem fetch_loop_rate_limit_retry_witness :
    fetch_loop 0 [Resp.rateLimit] 0 [] = fetch_loop 0 [] 0 [] :=
  (fetch_loop_rate_limit_retry ⟨0, []⟩ Resp.exn 0 0 [] [] (by decide)).2.2

/-- C3: for every reversed range (start_date > end_date) and nonempty key,
`fetch_historical_weather` returns an empty table having consumed no
response at all — the loop body never executes, so zero network calls are
made. -/
theorem fetch_historical_weather_empty_range (start_date end_date : ℤ)
    (k : String) (API_KEY : Option String) (resps : List Resp)
    (hk : k ≠ "") (hrange : end_date < start_date) :
    fetch_historical_weather start_date end_date (some k) API_KEY resps =
      Except.ok (some ([], resps)) := by
  show (if k = "" then Except.error _ else
      Except.ok (fetch_loop end_date resps start_date [])) = _
  rw [if_neg hk, fetch_loop_stop end_date start_date resps [] hrange]

/-- Witness for C3: the range from day 1 to day 0 yields an empty table and
leaves the single available response unconsumed. -/
theorem fetch_historical_weather_empty_range_witness :
    fetch_historical_weather 1 0 (some "k") none [Resp.exn] =
      Except.ok (some ([], [Resp.exn])) :=
  fetch_historical_weather_empty_range 1 0 "k" none [Resp.exn]
    (by decide) (by decide)

theorem hasCol_copyCol (df : DataFrame) (pr : String × String) (c : String) :
    hasCol (copyCol df pr) c =
      if pr.2 = c then (hasCol df pr.1 || hasCol df c) else hasCol df c := by
  unfold copyCol
  split_ifs with h1 h2
  · rw [hasCol_setCol, if_pos h2]
    simp [h1]
  · rw [hasCol_setCol, if_neg h2]
  · simp_all
  · rfl

theorem getCol_copyCol_ne (df : DataFrame) (pr : String × String) (c : String)
    (h : pr.2 ≠ c) : getCol (copyCol df pr) c = getCol df c := by
  unfold copyCol
  split_ifs with h1
  · exact getCol_setCol_ne _ _ _ _ h
  · rfl

theorem getCol_copyCol_self (df : DataFrame) (pr : String × String)
    (h1 : hasCol df pr.1 = true) : getCol (copyCol df pr) pr.2 = getCol df pr.1 := by
  unfold copyCol
  rw [if_pos h1, getCol_setCol_self]

theorem hasCol_copySourceCols_other (df : DataFrame) (c : String)
    (h1 : "temp_max" ≠ c) (h2 : "temp_min" ≠ c) (h3 : "precipitation" ≠ c)
    (h4 : "wind_speed" ≠ c) (h5 : "snow" ≠ c) (h6 : "snow_depth" ≠ c) :
    hasCol (copySourceCols df) c = hasCol df c := by
  simp only [copySourceCols, column_mapping, List.foldl_cons, List.foldl_nil,
    hasCol_copyCol]
  simp [h1, h2, h3, h4, h5, h6]

theorem getCol_copySourceCols_other (df : DataFrame) (c : String)
    (h1 : "temp_max" ≠ c) (h2 : "temp_min" ≠ c) (h3 : "precipitation" ≠ c)
    (h4 : "wind_speed" ≠ c) (h5 : "snow" ≠ c) (h6 : "snow_depth" ≠ c) :
    getCol (copySourceCols df) c = getCol df c := by
  simp only [copySourceCols, column_mapping, List.foldl_cons, List.foldl_nil]
  rw [getCol_copyCol_ne _ ("SNWD", "snow_depth") _ h6,
    getCol_copyCol_ne _ ("SNOW", "snow") _ h5,
    getCol_copyCol_ne _ ("AWND", "wind_speed") _ h4,
    getCol_copyCol_ne _ ("PRCP", "precipitation") _ h3,
    getCol_copyCol_ne _ ("TMIN", "temp_min") _ h2,
    getCol_copyCol_ne _ ("TMAX", "temp_max") _ h1]

theorem hasCol_copySourceCols_target (df : DataFrame) (pr : String × String)
    (hpr : pr ∈ column_mapping) :
    hasCol (copySourceCols df) pr.2 = (hasCol df pr.1 || hasCol df pr.2) := by
  fin_cases hpr <;>
    · simp only [copySourceCols, column_mapping, List.foldl_cons, List.foldl_nil,
        hasCol_copyCol]
      simp

theorem hasCol_copySourceCols_source (df : DataFrame) (pr : String × String)
    (hpr : pr ∈ column_mapping) :
    hasCol (copySourceCols df) pr.1 = hasCol df pr.1 := by
  fin_cases hpr <;>
    exact hasCol_copySourceCols_other df _ (by decide) (by decide) (by decide)
      (by decide) (by decide) (by decide)

theorem getCol_copySourceCols_source (df : DataFrame) (pr : String × String)
    (hpr : pr ∈ column_mapping) :
    getCol (copySourceCols df) pr.1 = getCol df pr.1 := by
  fin_cases hpr <;>
    exact getCol_copySourceCols_other df _ (by decide) (by decide) (by decide)
      (by decide) (by decide) (by decide)

theorem getCol_copySourceCols_target (df : DataFrame) (pr : String × String)
    (hpr : pr ∈ column_mapping) (h : hasCol df pr.1 = true) :
    getCol (copySourceCols df) pr.2 = getCol df pr.1 := by
  fin_cases hpr
  · simp only [copySourceCols, column_mapping, List.foldl_cons, List.foldl_nil]
    rw [getCol_copyCol_ne _ ("SNWD", "snow_depth") _ (by decide),
      getCol_copyCol_ne _ ("SNOW", "snow") _ (by decide),
      getCol_copyCol_ne _ ("AWND", "wind_speed") _ (by decide),
      getCol_copyCol_ne _ ("PRCP", "precipitation") _ (by decide),
      getCol_copyCol_ne _ ("TMIN", "temp_min") _ (by decide)]
    exact getCol_copyCol_self _ _ (by simpa using h)
  · simp only [copySourceCols, column_mapping, List.foldl_cons, List.foldl_nil]
    rw [getCol_copyCol_ne _ ("SNWD", "snow_depth") _ (by decide),
      getCol_copyCol_ne _ ("SNOW", "snow") _ (by decide),
      getCol_copyCol_ne _ ("AWND", "wind_speed") _ (by decide),
      getCol_copyCol_ne _ ("PRCP", "precipitation") _ (by decide)]
    have h1 : hasCol (copyCol df ("TMAX", "temp_max")) "TMIN" = true := by
      rw [hasCol_copyCol]
      simpa using h
    rw [getCol_copyCol_self _ _ h1,
      getCol_copyCol_ne _ ("TMAX", "temp_max") _ (by decide)]
  · simp only [copySourceCols, column_mapping, List.foldl_cons, List.foldl_nil]
    rw [getCol_copyCol_ne _ ("SNWD", "snow_depth") _ (by decide),
      getCol_copyCol_ne _ ("SNOW", "snow") _ (by decide),
      getCol_copyCol_ne _ ("AWND", "wind_speed") _ (by decide)]
    have h1 : hasCol (copyCol (copyCol df ("TMAX", "temp_max"))
        ("TMIN", "temp_min")) "PRCP" = true := by
      simp only [hasCol_copyCol]
      simpa using h
    rw [getCol_copyCol_self _ _ h1,
      getCol_copyCol_ne _ ("TMIN", "temp_min") _ (by decide),
      getCol_copyCol_ne _ ("TMAX", "temp_max") _ (by decide)]
  · simp only [copySourceCols, column_mapping, List.foldl_cons, List.foldl_nil]
    rw [getCol_copyCol_ne _ ("SNWD", "snow_depth") _ (by decide),
      getCol_copyCol_ne _ ("SNOW", "snow") _ (by decide)]
    have h1 : hasCol (copyCol (copyCol (copyCol df ("TMAX", "temp_max"))
        ("TMIN", "temp_min")) ("PRCP", "precipitation")) "AWND" = true := by
      simp only [hasCol_copyCol]
      simpa using h
    rw [getCol_copyCol_self _ _ h1,
      getCol_copyCol_ne _ ("PRCP", "precipitation") _ (by decide),
      getCol_copyCol_ne _ ("TMIN", "temp_min") _ (by decide),
      getCol_copyCol_ne _ ("TMAX", "temp_max") _ (by decide)]
  · simp only [copySourceCols, column_mapping, List.foldl_cons, List.foldl_nil]
    rw [getCol_copyCol_ne _ ("SNWD", "snow_depth") _ (by decide)]
    have h1 : hasCol (copyCol (copyCol (copyCol (copyCol df
        ("TMAX", "temp_max")) ("TMIN", "temp_min")) ("PRCP", "precipitation"))
        ("AWND", "wind_speed")) "SNOW" = true := by
      simp only [hasCol_copyCol]
      simpa using h
    rw [getCol_copyCol_self _ _ h1,
      getCol_copyCol_ne _ ("AWND", "wind_speed") _ (by decide),
      getCol_copyCol_ne _ ("PRCP", "precipitation") _ (by decide),
      getCol_copyCol_ne _ ("TMIN", "temp_min") _ (by decide),
      getCol_copyCol_ne _ ("TMAX", "temp_max") _ (by decide)]
  · simp only [copySourceCols, column_mapping, List.foldl_cons, List.foldl_nil]
    have h1 : hasCol (copyCol (copyCol (copyCol (copyCol (copyCol df
        ("TMAX", "temp_max")) ("TMIN", "temp_min")) ("PRCP", "precipitation"))
        ("AWND", "wind_speed")) ("SNOW", "snow")) "SNWD" = true := by
      simp only [hasCol_copyCol]
      simpa using h
    rw [getCol_copyCol_self _ _ h1,
      getCol_copyCol_ne _ ("SNOW", "snow") _ (by decide),
      getCol_copyCol_ne _ ("AWND", "wind_speed") _ (by decide),
      getCol_copyCol_ne _ ("PRCP", "precipitation") _ (by decide),
      getCol_copyCol_ne _ ("TMIN", "temp_min") _ (by decide),
      getCol_copyCol_ne _ ("TMAX", "temp_max") _ (by decide)]

theorem hasCol_addTempAvg_ne (df : DataFrame) (c : String)
    (h : "temp_avg" ≠ c) : hasCol (addTempAvg df) c = hasCol df c := by
  unfold addTempAvg
  split_ifs with h1
  · simp [hasCol_setCol, h]
  · rfl

theorem getCol_addTempAvg_ne (df : DataFrame) (c : String)
    (h : "temp_avg" ≠ c) : getCol (addTempAvg df) c = getCol df c := by
  unfold addTempAvg
  split_ifs with h1
  · exact getCol_setCol_ne _ _ _ _ h
  · rfl

theorem hasCol_addTempAvg_avg (df : DataFrame)
    (h : hasCol df "temp_avg" = false) :
    hasCol (addTempAvg df) "temp_avg" =
      (hasCol df "temp_max" && hasCol df "temp_min") := by
  unfold addTempAvg
  split_ifs with h1
  · rw [hasCol_setCol]
    simp [h1]
  · simp only [Bool.not_eq_true] at h1
    rw [h, h1]

theorem getCol_addTempAvg_avg (df : DataFrame)
    (hc : (hasCol df "temp_max" && hasCol df "temp_min") = true) :
    getCol (addTempAvg df) "temp_avg" =
      List.zipWith avg2 (getCol df "temp_max") (getCol df "temp_min") := by
  unfold addTempAvg
  rw [if_pos hc, getCol_setCol_self]

theorem hasCol_addIsRainy_ne (df : DataFrame) (c : String)
    (h : "is_rainy" ≠ c) : hasCol (addIsRainy df) c = hasCol df c := by
  unfold addIsRainy
  split_ifs with h1
  · simp [hasCol_setCol, h]
  · rfl

theorem getCol_addIsRainy_ne (df : DataFrame) (c : String)
    (h : "is_rainy" ≠ c) : getCol (addIsRainy df) c = getCol df c := by
  unfold addIsRainy
  split_ifs with h1
  · exact getCol_setCol_ne _ _ _ _ h
  · rfl

theorem hasCol_addIsRainy_rainy (df : DataFrame)
    (h : hasCol df "is_rainy" = false) :
    hasCol (addIsRainy df) "is_rainy" = hasCol df "precipitation" := by
  unfold addIsRainy
  split_ifs with h1
  · rw [hasCol_setCol]
    simp [h1]
  · simp only [Bool.not_eq_true] at h1
    rw [h, h1]

theorem getCol_addIsRainy_rainy (df : DataFrame)
    (hc : hasCol df "precipitation" = true) :
    getCol (addIsRainy df) "is_rainy" =
      (getCol df "precipitation").map gtZero := by
  unfold addIsRainy
  rw [if_pos hc, getCol_setCol_self]

/-- C7: in the output of `load_noaa_weather_data`, temp_avg is present
exactly when both temp_max and temp_min are present, and then equals their
per-row mean; is_rainy is present exactly when precipitation is present,
and then holds per row exactly when precipitation is positive.  The input
is a NOAA source file, which carries no column already named temp_avg or
is_rainy. -/
theorem load_noaa_weather_data_derived (parse : Value → Value)
    (df : DataFrame) (hdate : hasCol df "DATE" = true)
    (hta : hasCol df "temp_avg" = false)
    (hir : hasCol df "is_rainy" = false) :
    ∃ out, load_noaa_weather_data parse df = some out ∧
      hasCol out "temp_avg" = (hasCol out "temp_max" && hasCol out "temp_min") ∧
      (hasCol out "temp_avg" = true →
        getCol out "temp_avg" =
          List.zipWith avg2 (getCol out "temp_max") (getCol out "temp_min")) ∧
      hasCol out "is_rainy" = hasCol out "precipitation" ∧
      (hasCol out "is_rainy" = true →
        getCol out "is_rainy" = (getCol out "precipitation").map gtZero) := by
  unfold load_noaa_weather_data
  rw [if_pos hdate]
  have hd1ta : hasCol (setCol df "date" ((getCol df "DATE").map parse))
      "temp_avg" = false := by
    rw [hasCol_setCol]
    simpa using hta
  have hd1ir : hasCol (setCol df "date" ((getCol df "DATE").map parse))
      "is_rainy" = false := by
    rw [hasCol_setCol]
    simpa using hir
  generalize setCol df "date" ((getCol df "DATE").map parse) = d1 at hd1ta hd1ir ⊢
  have h7ta : hasCol (copySourceCols d1) "temp_avg" = false := by
    rw [hasCol_copySourceCols_other _ _ (by decide) (by decide) (by decide)
      (by decide) (by decide) (by decide)]
    exact hd1ta
  have h7ir : hasCol (copySourceCols d1) "is_rainy" = false := by
    rw [hasCol_copySourceCols_other _ _ (by decide) (by decide) (by decide)
      (by decide) (by decide) (by decide)]
    exact hd1ir
  generalize copySourceCols d1 = s7 at h7ta h7ir ⊢
  have h8ta : hasCol (addTempAvg s7) "temp_avg" =
      (hasCol s7 "temp_max" && hasCol s7 "temp_min") :=
    hasCol_addTempAvg_avg _ h7ta
  have h8ir : hasCol (addTempAvg s7) "is_rainy" = false := by
    rw [hasCol_addTempAvg_ne _ _ (by decide)]
    exact h7ir
  refine ⟨_, rfl, ?_, ?_, ?_, ?_⟩
  · rw [hasCol_addIsRainy_ne _ _ (by decide), hasCol_addIsRainy_ne _ _ (by decide),
      hasCol_addIsRainy_ne _ _ (by decide), h8ta,
      hasCol_addTempAvg_ne _ _ (by decide), hasCol_addTempAvg_ne _ _ (by decide)]
  · intro hcond
    rw [hasCol_addIsRainy_ne _ _ (by decide), h8ta] at hcond
    rw [getCol_addIsRainy_ne _ _ (by decide), getCol_addIsRainy_ne _ _ (by decide),
      getCol_addIsRainy_ne _ _ (by decide), getCol_addTempAvg_avg _ hcond,
      getCol_addTempAvg_ne _ _ (by decide), getCol_addTempAvg_ne _ _ (by decide)]
  · rw [hasCol_addIsRainy_rainy _ h8ir, hasCol_addIsRainy_ne _ _ (by decide)]
  · intro hcond
    rw [hasCol_addIsRainy_rainy _ h8ir] at hcond
    rw [getCol_addIsRainy_rainy _ hcond, getCol_addIsRainy_ne _ _ (by decide)]

/-- Witness for C7 at the spec example input: a file with only DATE and
TMAX columns. -/
theorem load_noaa_weather_data_derived_witness :
    ∃ out, load_noaa_weather_data (fun v => v)
        [("DATE", [Value.str "2023-01-01"]), ("TMAX", [Value.num 50])] =
        some out ∧
      hasCol out "temp_avg" = (hasCol out "temp_max" && hasCol out "temp_min") ∧
      (hasCol out "temp_avg" = true →
        getCol out "temp_avg" =
          List.zipWith avg2 (getCol out "temp_max") (getCol out "temp_min")) ∧
      hasCol out "is_rainy" = hasCol out "precipitation" ∧
      (hasCol out "is_rainy" = true →
        getCol out "is_rainy" = (getCol out "precipitation").map gtZero) :=
  load_noaa_weather_data_derived (fun v => v)
    [("DATE", [Value.str "2023-01-01"]), ("TMAX", [Value.num 50])]
    (by rfl) (by rfl) (by rfl)

/-- Counterexample to C8 as stated: after loading a file with a TMAX
column, the output still contains the source-named TMAX column (alongside
the canonical temp_max) — the copy loop `df[new_col] = df[old_col]` copies
and never drops, so the original source-named column does appear in the
output. -/
theorem load_noaa_weather_data_keeps_source :
    (load_noaa_weather_data (fun v => v) noaaSample).isSome = true ∧
    hasCol ((load_noaa_weather_data (fun v => v) noaaSample).getD [])
      "TMAX" = true ∧
    hasCol ((load_noaa_weather_data (fun v => v) noaaSample).getD [])
      "temp_max" = true :=
  ⟨rfl, rfl, rfl⟩

/-- C8 amended: each source column among TMAX, TMIN, PRCP, AWND, SNOW,
SNWD present in the input is copied to its canonical name with unchanged
values, and the original source-named column also remains in the output
with unchanged values; a source column absent from the input yields no
corresponding canonical column (no null-filling, no error).  The input is
a NOAA source file, which carries no column already named by a canonical
name. -/
theorem load_noaa_weather_data_copies (parse : Value → Value)
    (df : DataFrame) (hdate : hasCol df "DATE" = true)
    (hclean : ∀ pr ∈ column_mapping, hasCol df pr.2 = false) :
    ∃ out, load_noaa_weather_data parse df = some out ∧
      ∀ pr ∈ column_mapping,
        hasCol out pr.2 = hasCol df pr.1 ∧
        hasCol out pr.1 = hasCol df pr.1 ∧
        (hasCol df pr.1 = true →
          getCol out pr.2 = getCol df pr.1 ∧
          getCol out pr.1 = getCol df pr.1) := by
  unfold load_noaa_weather_data
  rw [if_pos hdate]
  have hstr : ∀ pr ∈ column_mapping,
      ("is_rainy" : String) ≠ pr.2 ∧ ("temp_avg" : String) ≠ pr.2 ∧
      ("date" : String) ≠ pr.2 ∧ ("is_rainy" : String) ≠ pr.1 ∧
      ("temp_avg" : String) ≠ pr.1 ∧ ("date" : String) ≠ pr.1 := by decide
  refine ⟨_, rfl, ?_⟩
  intro pr hpr
  obtain ⟨s1, s2, s3, s4, s5, s6⟩ := hstr pr hpr
  have hd1src : hasCol (setCol df "date" ((getCol df "DATE").map parse))
      pr.1 = hasCol df pr.1 := by
    rw [hasCol_setCol, if_neg s6]
  have hd1tgt : hasCol (setCol df "date" ((getCol df "DATE").map parse))
      pr.2 = false := by
    rw [hasCol_setCol, if_neg s3]
    exact hclean pr hpr
  refine ⟨?_, ?_, ?_⟩
  · rw [hasCol_addIsRainy_ne _ _ s1, hasCol_addTempAvg_ne _ _ s2,
      hasCol_copySourceCols_target _ _ hpr, hd1src, hd1tgt, Bool.or_false]
  · rw [hasCol_addIsRainy_ne _ _ s4, hasCol_addTempAvg_ne _ _ s5,
      hasCol_copySourceCols_source _ _ hpr, hd1src]
  · intro hsrc
    have hd1src' : hasCol (setCol df "date" ((getCol df "DATE").map parse))
        pr.1 = true := by rw [hd1src]; exact hsrc
    have hd1get : getCol (setCol df "date" ((getCol df "DATE").map parse))
        pr.1 = getCol df pr.1 := getCol_setCol_ne _ _ _ _ s6
    constructor
    · rw [getCol_addIsRainy_ne _ _ s1, getCol_addTempAvg_ne _ _ s2,
        getCol_copySourceCols_target _ _ hpr hd1src', hd1get]
    · rw [getCol_addIsRainy_ne _ _ s4, getCol_addTempAvg_ne _ _ s5,
        getCol_copySourceCols_source _ _ hpr, hd1get]

/-- Witness for the amended C8 at the DATE-and-TMAX-only input. -/
theorem load_noaa_weather_data_copies_witness :
    ∃ out, load_noaa_weather_data (fun v => v) noaaSample = some out ∧
      ∀ pr ∈ column_mapping,
        hasCol out pr.2 = hasCol noaaSample pr.1 ∧
        hasCol out pr.1 = hasCol noaaSample pr.1 ∧
        (hasCol noaaSample pr.1 = true →
          getCol out pr.2 = getCol noaaSample pr.1 ∧
          getCol out pr.1 = getCol noaaSample pr.1) :=
  load_noaa_weather_data_copies (fun v => v) noaaSample (by rfl) (by decide)

/-- C9: the summary contains exactly the metrics whose prerequisite column
is present — its key list is the concatenation of the three conditional
groups, each metric looks up to its aggregate exactly when its prerequisite
column is present, and a table with none of temp_avg, precipitation,
weather_main yields the empty mapping. -/
theorem get_weather_summary_spec (df : DataFrame) :
    ((get_weather_summary df).map Prod.fst =
      (if hasCol df "temp_avg" then ["avg_temp", "min_temp", "max_temp"]
        else []) ++
      (if hasCol df "precipitation" then ["total_precip", "rainy_days"]
        else []) ++
      (if hasCol df "weather_main" then ["weather_distribution"] else [])) ∧
    ((get_weather_summary df).lookup "avg_temp" =
      if hasCol df "temp_avg" then
        some (SummaryVal.q (meanQ (numsOf (getCol df "temp_avg")))) else none) ∧
    ((get_weather_summary df).lookup "min_temp" =
      if hasCol df "temp_avg" then
        some (SummaryVal.q (minQ (numsOf (getCol df "temp_avg")))) else none) ∧
    ((get_weather_summary df).lookup "max_temp" =
      if hasCol df "temp_avg" then
        some (SummaryVal.q (maxQ (numsOf (getCol df "temp_avg")))) else none) ∧
    ((get_weather_summary df).lookup "total_precip" =
      if hasCol df "precipitation" then
        some (SummaryVal.q (numsOf (getCol df "precipitation")).sum) else none) ∧
    ((get_weather_summary df).lookup "rainy_days" =
      if hasCol df "precipitation" then
        some (SummaryVal.n (rainyDays (getCol df "precipitation"))) else none) ∧
    ((get_weather_summary df).lookup "weather_distribution" =
      if hasCol df "weather_main" then
        some (SummaryVal.dist (value_counts (strsOf (getCol df "weather_main"))))
      else none) ∧
    (hasCol df "temp_avg" = false → hasCol df "precipitation" = false →
      hasCol df "weather_main" = false → get_weather_summary df = []) := by
  by_cases h1 : hasCol df "temp_avg" = true <;>
    by_cases h2 : hasCol df "precipitation" = true <;>
      by_cases h3 : hasCol df "weather_main" = true <;>
        simp_all [get_weather_summary, List.lookup]

/-- Witness for C9: a frame with none of the three prerequisite columns
summarises to the empty mapping. -/
theorem get_weather_summary_spec_witness :
    get_weather_summary [("date", [Value.str "2023-01-01"])] = [] :=
  (get_weather_summary_spec [("date", [Value.str "2023-01-01"])]).2.2.2.2.2.2.2
    (by rfl) (by rfl) (by rfl)

theorem length_setColRef (h : Heap) (i : ℕ) (c : String) (v : List Value) :
    (setColRef h i c v).length = h.length := by
  unfold setColRef
  exact List.length_set h i _

theorem lookupRef_setColRef_ne (h : Heap) (i j : ℕ) (c : String)
    (v : List Value) (hij : i ≠ j) :
    lookupRef (setColRef h i c v) j = lookupRef h j := by
  unfold setColRef lookupRef
  simp [List.getD_eq_getElem?_getD, List.getElem?_set_ne hij]

theorem lookupRef_setColRef_self (h : Heap) (i : ℕ) (c : String)
    (v : List Value) (hi : i < h.length) :
    lookupRef (setColRef h i c v) i = setCol (lookupRef h i) c v := by
  unfold setColRef lookupRef
  rw [List.getD_eq_getElem?_getD, List.getElem?_set_self hi]
  rfl

theorem lookupRef_append_left (h : Heap) (x : DataFrame) (r : ℕ)
    (hr : r < h.length) : lookupRef (h ++ [x]) r = lookupRef h r := by
  unfold lookupRef
  rw [List.getD_eq_getElem?_getD, List.getD_eq_getElem?_getD,
    List.getElem?_append_left hr]

theorem lookupRef_append_last (h : Heap) (x : DataFrame) :
    lookupRef (h ++ [x]) h.length = x := by
  unfold lookupRef
  rw [List.getD_eq_getElem?_getD, List.getElem?_concat_length]
  rfl

theorem length_addTempCategoryRef (h : Heap) (df : ℕ) :
    (addTempCategoryRef h df).length = h.length := by
  unfold addTempCategoryRef
  split_ifs
  · exact length_setColRef _ _ _ _
  · rfl

theorem lookupRef_addTempCategoryRef_ne (h : Heap) (df j : ℕ) (hj : df ≠ j) :
    lookupRef (addTempCategoryRef h df) j = lookupRef h j := by
  unfold addTempCategoryRef
  split_ifs
  · exact lookupRef_setColRef_ne _ _ _ _ _ hj
  · rfl

theorem lookupRef_addTempCategoryRef_self (h : Heap) (df : ℕ)
    (hdf : df < h.length) :
    lookupRef (addTempCategoryRef h df) df =
      addTempCategory (lookupRef h df) := by
  unfold addTempCategoryRef addTempCategory
  split_ifs
  · exact lookupRef_setColRef_self _ _ _ _ hdf
  · rfl

theorem length_addWeatherFlagsRef (h : Heap) (df : ℕ) :
    (addWeatherFlagsRef h df).length = h.length := by
  simp only [addWeatherFlagsRef]
  split_ifs
  · simp only [length_setColRef]
  · rfl

theorem lookupRef_addWeatherFlagsRef_ne (h : Heap) (df j : ℕ) (hj : df ≠ j) :
    lookupRef (addWeatherFlagsRef h df) j = lookupRef h j := by
  simp only [addWeatherFlagsRef]
  split_ifs
  · rw [lookupRef_setColRef_ne _ _ _ _ _ hj, lookupRef_setColRef_ne _ _ _ _ _ hj,
      lookupRef_setColRef_ne _ _ _ _ _ hj]
  · rfl

theorem lookupRef_addWeatherFlagsRef_self (h : Heap) (df : ℕ)
    (hdf : df < h.length) :
    lookupRef (addWeatherFlagsRef h df) df =
      addWeatherFlags (lookupRef h df) := by
  simp only [addWeatherFlagsRef, addWeatherFlags]
  split_ifs
  · simp only [lookupRef_setColRef_self, length_setColRef, hdf]
  · rfl

/-- C10: `create_weather_categories` never mutates its argument.  At the
heap level, after the call the argument cell holds exactly the columns and
values it held before; the returned reference is distinct from the
argument (a fresh value, not an in-place update); and the returned cell
holds exactly the result of the pure transformation. -/
theorem create_weather_categories_ref_frame (h : Heap) (r : ℕ)
    (hr : r < h.length) :
    lookupRef (create_weather_categories_ref h r).1 r = lookupRef h r ∧
    (create_weather_categories_ref h r).2 ≠ r ∧
    lookupRef (create_weather_categories_ref h r).1
        (create_weather_categories_ref h r).2 =
      create_weather_categories (lookupRef h r) := by
  have hne : h.length ≠ r := Nat.ne_of_gt hr
  have hdf1 : h.length < (h ++ [lookupRef h r]).length := by
    simp
  unfold create_weather_categories_ref copyAlloc
  refine ⟨?_, hne, ?_⟩
  · rw [lookupRef_addWeatherFlagsRef_ne _ _ _ hne,
      lookupRef_addTempCategoryRef_ne _ _ _ hne,
      lookupRef_append_left _ _ _ hr]
  · rw [lookupRef_addWeatherFlagsRef_self _ _
        (by rw [length_addTempCategoryRef]; exact hdf1),
      lookupRef_addTempCategoryRef_self _ _ hdf1,
      lookupRef_append_last]
    rfl

/-- Witness for C10 at a one-cell heap holding a one-column frame. -/
theorem create_weather_categories_ref_frame_witness :
    lookupRef (create_weather_categories_ref
        [[("temp_avg", [Value.num 40])]] 0).1 0 =
      lookupRef [[("temp_avg", [Value.num 40])]] 0 ∧
    (create_weather_categories_ref [[("temp_avg", [Value.num 40])]] 0).2 ≠ 0 ∧
    lookupRef (create_weather_categories_ref
        [[("temp_avg", [Value.num 40])]] 0).1
        (create_weather_categories_ref [[("temp_avg", [Value.num 40])]] 0).2 =
      create_weather_categories (lookupRef [[("temp_avg", [Value.num 40])]] 0) :=
  create_weather_categories_ref_frame [[("temp_avg", [Value.num 40])]] 0
    (by decide)

end WeatherApi

